import Mathlib

/-!
# Verification of the flash-banana image-editing server

A shallow embedding of the Express server (`server.js`, here `src/unnamed/part_000`)
and the two Gemini client wrappers (`services/geminiText.js`, `services/geminiImage.js`).

Modelling conventions:
* JavaScript values that may be `undefined`/`null` are `Option`.
* The storage directory is a list of file basenames, most recently written first.
* Asynchronous external calls and file writes are oracles: their outcomes are
  passed in as `Except String _` parameters, and the handler consumes them in
  the same order the JavaScript `await`s them.
* The handler records an event trace mirroring the sequence of its effects.
-/

namespace FlashBanana

/-! ## Gemini client wrappers (`geminiText.js`, `geminiImage.js`) -/

/-- A successful `ai.models.generateContent` response.  The code reads only
`resp.text`, which a real response may or may not carry (`undefined`). -/
structure GenContentResp where
  text? : Option String
  deriving Repr, DecidableEq

/-- A successful `ai.models.generateImage` response.  The code reads only
`resp.imageBase64`, which may be absent. -/
structure GenImageResp where
  imageBase64? : Option String
  deriving Repr, DecidableEq

/-- The object `parsePrompt` hands back to the route handler: on success the
raw service response (no `error` field), on failure `{ text: prompt, error }`. -/
structure ParseResult where
  text? : Option String
  error? : Option String
  deriving Repr, DecidableEq

/-- The object `editImage` hands back: on success the raw service response
(no `error` field), on failure `{ imageBase64: null, error }`. -/
structure EditResult where
  imageBase64? : Option String
  error? : Option String
  deriving Repr, DecidableEq

/-- `parsePrompt(prompt)` from `geminiText.js`: awaits `generateContent` and
returns the raw response; on any thrown failure returns
`{ text: prompt, error: err.message }`. -/
def parsePrompt (prompt : String) (svc : Except String GenContentResp) : ParseResult :=
  match svc with
  | .ok resp => { text? := resp.text?, error? := none }
  | .error msg => { text? := some prompt, error? := some msg }

/-- `editImage(imagePath, instructions)` from `geminiImage.js`: awaits
`generateImage` and returns the raw response; on any thrown failure returns
`{ imageBase64: null, error: err.message }`.  The path and instructions are
forwarded to the remote service and do not affect the local result shape. -/
def editImage (imagePath : String) (instructions : Option String)
    (svc : Except String GenImageResp) : EditResult :=
  match svc with
  | .ok resp => { imageBase64? := resp.imageBase64?, error? := none }
  | .error msg => { imageBase64? := none, error? := some msg }

/-! ## `Buffer.from(x, 'base64')`

Node's `Buffer.from` throws a `TypeError` when its first argument is
`null`/`undefined`.  On a string it always succeeds: characters outside the
base64 alphabet are skipped and the remaining sextets are packed into bytes. -/

/-- Value of a base64 alphabet character, `none` for characters Node skips. -/
def b64CharVal (c : Char) : Option Nat :=
  if 'A' ≤ c ∧ c ≤ 'Z' then some (c.toNat - 65)
  else if 'a' ≤ c ∧ c ≤ 'z' then some (c.toNat - 97 + 26)
  else if '0' ≤ c ∧ c ≤ '9' then some (c.toNat - 48 + 52)
  else if c = '+' then some 62
  else if c = '/' then some 63
  else none

/-- Pack one group of up to four sextets into bytes. -/
def b64Group : List Nat → List Nat
  | [a, b, c, d] => [(a * 4 + b / 16) % 256, ((b % 16) * 16 + c / 4) % 256, ((c % 4) * 64 + d) % 256]
  | [a, b, c] => [(a * 4 + b / 16) % 256, ((b % 16) * 16 + c / 4) % 256]
  | [a, b] => [(a * 4 + b / 16) % 256]
  | _ => []

/-- Decode a base64 string the way Node's lenient decoder does. -/
def base64DecodeBytes (s : String) : List Nat :=
  ((s.data.filterMap b64CharVal).toChunks 4).map b64Group |>.flatten

/-- The `TypeError` message Node raises for `Buffer.from(null, 'base64')`. -/
def bufferNullMsg : String :=
  "The first argument must be of type string or an instance of Buffer, ArrayBuffer, or Array or an Array-like Object. Received null"

/-- `Buffer.from(arg, 'base64')`: throws on `null`/`undefined`, otherwise
decodes the string leniently. -/
def bufferFromBase64 : Option String → Except String (List Nat)
  | none => .error bufferNullMsg
  | some s => .ok (base64DecodeBytes s)

/-! ## Multer `fileFilter`

`const allowed = /jpeg|jpg|png|webp/.test(file.mimetype) || /\.(jpe?g|png|webp)$/i.test(file.originalname)`

`RegExp.test` with no anchors is a substring search; the extension pattern is
anchored at the end and case-insensitive. -/

/-- Does `pat` occur at the start of `hay`? -/
def charsHaveStart : List Char → List Char → Bool
  | _, [] => true
  | [], _ :: _ => false
  | h :: hs, p :: ps => (h == p) && charsHaveStart hs ps

/-- Does `pat` occur contiguously anywhere in `hay`? -/
def charsContain : List Char → List Char → Bool
  | [], pat => pat.isEmpty
  | h :: tl, pat => charsHaveStart (h :: tl) pat || charsContain tl pat

/-- Substring test on strings, the semantics of un-anchored `RegExp.test`
with a literal alternative. -/
def strContains (hay pat : String) : Bool :=
  charsContain hay.data pat.data

/-- Does `hay` end with `pat`? -/
def strEndsWith (hay pat : String) : Bool :=
  charsHaveStart hay.data.reverse pat.data.reverse

/-- ASCII lowercase of a string, for the `/i` regex flag. -/
def lowerStr (s : String) : String :=
  ⟨s.data.map Char.toLower⟩

/-- `/\.(jpe?g|png|webp)$/i.test(originalname)`. -/
def extTest (originalname : String) : Bool :=
  let n := lowerStr originalname
  strEndsWith n ".jpg" || strEndsWith n ".jpeg" || strEndsWith n ".png" || strEndsWith n ".webp"

/-- The multer `fileFilter`: accept when the MIME type contains one of the
substrings `jpeg`/`jpg`/`png`/`webp`, or the original filename ends
(case-insensitively) in `.jpg`/`.jpeg`/`.png`/`.webp`. -/
def fileFilterAllows (mimetype originalname : String) : Bool :=
  (strContains mimetype "jpeg" || strContains mimetype "jpg" ||
    strContains mimetype "png" || strContains mimetype "webp")
  || extTest originalname

/-- The spec's reading of the filter: the MIME type itself denotes one of the
allowed image formats.  Used to compare the spec's claim with the code. -/
def specMimeAllowed (m : String) : Bool :=
  m == "image/jpeg" || m == "image/jpg" || m == "image/png" || m == "image/webp"

/-- `String.prototype.trim`: strip leading and trailing whitespace. -/
def jsTrim (s : String) : String :=
  ⟨((s.data.dropWhile Char.isWhitespace).reverse.dropWhile Char.isWhitespace).reverse⟩

/-! ## Storage -/

/-- The storage directory: file basenames present, most recently written first. -/
abbrev Storage := List String

/-! ## HTTP responses -/

/-- Response bodies the server can produce. -/
inductive Body where
  /-- `{success:true, parsed, imageUrl, previewUrl}`; `parsed` is omitted from
  the serialized JSON when `undefined`. -/
  | success (parsed : Option String) (imageUrl previewUrl : String)
  /-- `{error}` for a 400. -/
  | clientError (error : String)
  /-- `{error:'Server error', message}` for a 500. -/
  | serverError (error message : String)
  /-- `{status:'ok', ts}` from `/health`. -/
  | health (status : String) (ts : Nat)
  /-- The rate limiter's default `Too many requests` payload. -/
  | tooManyRequests
  deriving Repr, DecidableEq

/-- An HTTP response: status code and body. -/
structure Response where
  status : Nat
  body : Body
  deriving Repr, DecidableEq

/-! ## `/process` handler -/

/-- Events of one `/process` request, in the order the handler performs them. -/
inductive Event where
  /-- The prompt/file presence check. -/
  | validate
  /-- `sharp(file.path).resize(...).toFile(previewPath)`. -/
  | previewAttempt (previewName : String)
  /-- `await parsePrompt(prompt)`. -/
  | textCall (prompt : String)
  /-- `await editImage(file.path, parsed.text)`. -/
  | imageCall (path : String) (instructions : Option String)
  /-- `fs.writeFileSync(outPath, buffer)`. -/
  | persistAttempt (outName : String)
  /-- The terminal `res.json`/`res.status(..).json` call. -/
  | respond (status : Nat)
  deriving Repr, DecidableEq

/-- Outcomes of the oracles one `/process` request consumes, in program order. -/
structure ProcessEnv where
  /-- Outcome of the `sharp` preview write. -/
  previewWrite : Except String Unit
  /-- Outcome of `ai.models.generateContent` inside `parsePrompt`. -/
  parseSvc : Except String GenContentResp
  /-- Outcome of `ai.models.generateImage` inside `editImage`. -/
  editSvc : Except String GenImageResp
  /-- Outcome of `fs.writeFileSync` for the output file. -/
  outputWrite : Except String Unit
  /-- The `${Date.now()}-${uuidv4()}` stem of the output filename. -/
  outStamp : String
  deriving Repr

/-- Result of running the `/process` handler once. -/
structure RunResult where
  response : Response
  fs : Storage
  trace : List Event
  deriving Repr

/-- The preview filename: `preview-${path.basename(file.path)}.webp`. -/
def previewNameOf (staged : String) : String :=
  "preview-" ++ staged ++ ".webp"

/-- The output filename: `out-${Date.now()}-${uuidv4()}.png`. -/
def outNameOf (stamp : String) : String :=
  "out-" ++ stamp ++ ".png"

/-- The `POST /process` handler (`server.js` lines 41–76).  `file?` is the
basename multer staged (present iff an `image` part arrived), `promptField?`
is `req.body.prompt`, `fs0` the storage directory content when the handler
starts (the staged upload, when present, is already in it). -/
def processHandler (file? : Option String) (promptField? : Option String)
    (env : ProcessEnv) (fs0 : Storage) : RunResult :=
  let prompt := jsTrim (promptField?.getD "")
  match file? with
  | none =>
      { response := ⟨400, .clientError "Prompt and image are required."⟩
        fs := fs0
        trace := [.validate, .respond 400] }
  | some f =>
      if prompt = "" then
        { response := ⟨400, .clientError "Prompt and image are required."⟩
          fs := fs0.erase f
          trace := [.validate, .respond 400] }
      else
        let previewName := previewNameOf f
        match env.previewWrite with
        | .error msg =>
            { response := ⟨500, .serverError "Server error" msg⟩
              fs := fs0
              trace := [.validate, .previewAttempt previewName, .respond 500] }
        | .ok _ =>
            let fs1 := previewName :: fs0
            let parsed := parsePrompt prompt env.parseSvc
            let out := editImage f parsed.text? env.editSvc
            let outFilename := outNameOf env.outStamp
            match bufferFromBase64 out.imageBase64? with
            | .error msg =>
                { response := ⟨500, .serverError "Server error" msg⟩
                  fs := fs1
                  trace := [.validate, .previewAttempt previewName, .textCall prompt,
                    .imageCall f parsed.text?, .respond 500] }
            | .ok _buffer =>
                match env.outputWrite with
                | .error msg =>
                    { response := ⟨500, .serverError "Server error" msg⟩
                      fs := fs1
                      trace := [.validate, .previewAttempt previewName, .textCall prompt,
                        .imageCall f parsed.text?, .persistAttempt outFilename, .respond 500] }
                | .ok _ =>
                    { response := ⟨200,
                        .success parsed.text? ("/storage/" ++ outFilename)
                          ("/storage/" ++ previewName)⟩
                      fs := outFilename :: fs1
                      trace := [.validate, .previewAttempt previewName, .textCall prompt,
                        .imageCall f parsed.text?, .persistAttempt outFilename, .respond 200] }

/-! ## `/health` and the rate limiter -/

/-- The `GET /health` route handler: `res.json({ status: 'ok', ts: Date.now() })`.
`now` is the millisecond clock reading at the time of the call. -/
def healthHandler (now : Nat) : Response :=
  ⟨200, .health "ok" now⟩

/-- `rateLimit({ windowMs: 60_000, max: 60 })`: the request is served when at
most 59 requests from the same client preceded it in the current window. -/
def rateLimitMax : Nat := 60

/-- Whether the limiter passes a request through, given the number of prior
requests from the client in the current window. -/
def rateLimitAllows (priorHits : Nat) : Bool :=
  priorHits + 1 ≤ rateLimitMax

/-- A `GET /health` request as the server observes it: the global rate limiter
runs before the route handler. -/
def healthRequest (priorHits : Nat) (now : Nat) : Response :=
  if rateLimitAllows priorHits then healthHandler now
  else ⟨429, .tooManyRequests⟩

/-- Rank of an event in the canonical pipeline order. -/
def eventRank : Event → Nat
  | .validate => 0
  | .previewAttempt _ => 1
  | .textCall _ => 2
  | .imageCall _ _ => 3
  | .persistAttempt _ => 4
  | .respond _ => 5

/-! ## Claim theorems -/

/-- C2: a `/process` request whose trimmed prompt is empty (or absent) or which
carries no staged file is answered HTTP 400 with an error message; the staged
upload, when present, has been removed from storage by the synchronous
`unlinkSync` by response time; and no preview or output file is created, since
the final storage content is a subset of the initial one. -/
theorem process_missing_prompt_or_image
    (file? promptField? : Option String) (env : ProcessEnv) (fs0 : Storage)
    (h : jsTrim (promptField?.getD "") = "" ∨ file? = none) :
    (processHandler file? promptField? env fs0).response =
      ⟨400, Body.clientError "Prompt and image are required."⟩ ∧
    (processHandler file? promptField? env fs0).fs =
      (match file? with | some f => fs0.erase f | none => fs0) ∧
    (∀ n, n ∈ (processHandler file? promptField? env fs0).fs → n ∈ fs0) := by
  cases file? with
  | none =>
      refine ⟨rfl, rfl, ?_⟩
      intro n hn
      simpa [processHandler] using hn
  | some f =>
      have hp : jsTrim (promptField?.getD "") = "" := by
        rcases h with h | h
        · exact h
        · cases h
      refine ⟨?_, ?_, ?_⟩
      · simp [processHandler, hp]
      · simp [processHandler, hp]
      · intro n hn
        simp [processHandler, hp] at hn
        exact List.mem_of_mem_erase hn

/-- Witness for C2 at a concrete request: a staged file `a.png` with a
whitespace-only prompt is answered 400, the staged file is unlinked, and
storage gains no file. -/
theorem process_missing_prompt_or_image_witness :
    jsTrim ((some " " : Option String).getD "") = "" ∧
    ((processHandler (some "a.png") (some " ")
        ⟨.ok (), .ok ⟨some "t"⟩, .ok ⟨some "b"⟩, .ok (), "s"⟩ ["a.png"]).response =
      ⟨400, Body.clientError "Prompt and image are required."⟩ ∧
    (processHandler (some "a.png") (some " ")
        ⟨.ok (), .ok ⟨some "t"⟩, .ok ⟨some "b"⟩, .ok (), "s"⟩ ["a.png"]).fs =
      (["a.png"].erase "a.png") ∧
    (∀ n, n ∈ (processHandler (some "a.png") (some " ")
        ⟨.ok (), .ok ⟨some "t"⟩, .ok ⟨some "b"⟩, .ok (), "s"⟩ ["a.png"]).fs →
      n ∈ ["a.png"])) :=
  ⟨by decide,
   process_missing_prompt_or_image (some "a.png") (some " ")
     ⟨.ok (), .ok ⟨some "t"⟩, .ok ⟨some "b"⟩, .ok (), "s"⟩ ["a.png"] (Or.inl (by decide))⟩

/-- C1: with a staged upload, a non-empty trimmed prompt, the preview write
succeeding, the text-interpretation call succeeding with interpreted text `t`,
the image-edit call succeeding with payload `b`, and the output write
succeeding, the handler answers HTTP 200 with
`{success:true, parsed:t, imageUrl, previewUrl}`, and both URLs name files
present in storage at response time. -/
theorem process_success_response
    (f t b : String) (promptField? : Option String) (env : ProcessEnv) (fs0 : Storage)
    (hne : jsTrim (promptField?.getD "") ≠ "")
    (hprev : env.previewWrite = .ok ())
    (htext : env.parseSvc = .ok ⟨some t⟩)
    (himg : env.editSvc = .ok ⟨some b⟩)
    (hwrite : env.outputWrite = .ok ()) :
    (processHandler (some f) promptField? env fs0).response =
      ⟨200, Body.success (some t) ("/storage/" ++ outNameOf env.outStamp)
        ("/storage/" ++ previewNameOf f)⟩ ∧
    outNameOf env.outStamp ∈ (processHandler (some f) promptField? env fs0).fs ∧
    previewNameOf f ∈ (processHandler (some f) promptField? env fs0).fs := by
  simp [processHandler, hne, hprev, htext, himg, hwrite, parsePrompt, editImage,
    bufferFromBase64]

/-- Witness for C1 at a concrete request with every oracle succeeding. -/
theorem process_success_response_witness :
    jsTrim ((some "blue" : Option String).getD "") ≠ "" ∧
    ((processHandler (some "a.png") (some "blue")
        ⟨.ok (), .ok ⟨some "make it blue"⟩, .ok ⟨some "QUJD"⟩, .ok (), "1-u"⟩
        ["a.png"]).response =
      ⟨200, Body.success (some "make it blue") ("/storage/" ++ outNameOf "1-u")
        ("/storage/" ++ previewNameOf "a.png")⟩ ∧
    outNameOf "1-u" ∈ (processHandler (some "a.png") (some "blue")
        ⟨.ok (), .ok ⟨some "make it blue"⟩, .ok ⟨some "QUJD"⟩, .ok (), "1-u"⟩
        ["a.png"]).fs ∧
    previewNameOf "a.png" ∈ (processHandler (some "a.png") (some "blue")
        ⟨.ok (), .ok ⟨some "make it blue"⟩, .ok ⟨some "QUJD"⟩, .ok (), "1-u"⟩
        ["a.png"]).fs) :=
  ⟨by decide,
   process_success_response "a.png" "make it blue" "QUJD" (some "blue")
     ⟨.ok (), .ok ⟨some "make it blue"⟩, .ok ⟨some "QUJD"⟩, .ok (), "1-u"⟩
     ["a.png"] (by decide) rfl rfl rfl rfl⟩

/-- C5: when the text-interpretation call fails, `parsePrompt` returns the
fallback carrying the original trimmed prompt as the interpreted text, the
image-edit client is invoked with that prompt as instruction, and (the image
call and writes succeeding) the handler answers HTTP 200 whose `parsed` field
is the original prompt — no error is surfaced for the text failure. -/
theorem process_text_fallback
    (f msg b : String) (promptField? : Option String) (env : ProcessEnv) (fs0 : Storage)
    (hne : jsTrim (promptField?.getD "") ≠ "")
    (hprev : env.previewWrite = .ok ())
    (htext : env.parseSvc = .error msg)
    (himg : env.editSvc = .ok ⟨some b⟩)
    (hwrite : env.outputWrite = .ok ()) :
    parsePrompt (jsTrim (promptField?.getD "")) env.parseSvc =
      ⟨some (jsTrim (promptField?.getD "")), some msg⟩ ∧
    Event.imageCall f (some (jsTrim (promptField?.getD ""))) ∈
      (processHandler (some f) promptField? env fs0).trace ∧
    (processHandler (some f) promptField? env fs0).response =
      ⟨200, Body.success (some (jsTrim (promptField?.getD "")))
        ("/storage/" ++ outNameOf env.outStamp) ("/storage/" ++ previewNameOf f)⟩ := by
  refine ⟨by simp [parsePrompt, htext], ?_, ?_⟩ <;>
    simp [processHandler, hne, hprev, htext, himg, hwrite, parsePrompt, editImage,
      bufferFromBase64]

/-- Witness for C5 at a concrete request whose text call fails. -/
theorem process_text_fallback_witness :
    jsTrim ((some "blue" : Option String).getD "") ≠ "" ∧
    (parsePrompt (jsTrim ((some "blue" : Option String).getD ""))
        (Except.error "quota") = ⟨some "blue", some "quota"⟩ ∧
    Event.imageCall "a.png" (some "blue") ∈
      (processHandler (some "a.png") (some "blue")
        ⟨.ok (), .error "quota", .ok ⟨some "QUJD"⟩, .ok (), "1-u"⟩ ["a.png"]).trace ∧
    (processHandler (some "a.png") (some "blue")
        ⟨.ok (), .error "quota", .ok ⟨some "QUJD"⟩, .ok (), "1-u"⟩ ["a.png"]).response =
      ⟨200, Body.success (some "blue") ("/storage/" ++ outNameOf "1-u")
        ("/storage/" ++ previewNameOf "a.png")⟩) :=
  ⟨by decide,
   by
    have h := process_text_fallback "a.png" "quota" "QUJD" (some "blue")
      ⟨.ok (), .error "quota", .ok ⟨some "QUJD"⟩, .ok (), "1-u"⟩ ["a.png"]
      (by decide) rfl rfl rfl rfl
    simpa using h⟩

/-- C10: on a successful text call, `parsePrompt` hands back the raw response
without checking for a `text` field; when that response lacks one, the
image-edit client is invoked with `undefined` instructions and the handler
still answers HTTP 200 whose `parsed` field is `undefined` (omitted from the
serialized JSON), raising no error. -/
theorem process_raw_response_no_text
    (f b : String) (resp : GenContentResp) (promptField? : Option String)
    (env : ProcessEnv) (fs0 : Storage)
    (hne : jsTrim (promptField?.getD "") ≠ "")
    (hprev : env.previewWrite = .ok ())
    (htext : env.parseSvc = .ok resp) (hresp : resp.text? = none)
    (himg : env.editSvc = .ok ⟨some b⟩)
    (hwrite : env.outputWrite = .ok ()) :
    parsePrompt (jsTrim (promptField?.getD "")) env.parseSvc = ⟨resp.text?, none⟩ ∧
    Event.imageCall f none ∈ (processHandler (some f) promptField? env fs0).trace ∧
    (processHandler (some f) promptField? env fs0).response =
      ⟨200, Body.success none ("/storage/" ++ outNameOf env.outStamp)
        ("/storage/" ++ previewNameOf f)⟩ := by
  refine ⟨by simp [parsePrompt, htext], ?_, ?_⟩ <;>
    simp [processHandler, hne, hprev, htext, hresp, himg, hwrite, parsePrompt,
      editImage, bufferFromBase64]

/-- Witness for C10 at a concrete request whose text call succeeds with a
response lacking a `text` field. -/
theorem process_raw_response_no_text_witness :
    jsTrim ((some "blue" : Option String).getD "") ≠ "" ∧
    (parsePrompt (jsTrim ((some "blue" : Option String).getD ""))
        (Except.ok (⟨none⟩ : GenContentResp)) = ⟨none, none⟩ ∧
    Event.imageCall "a.png" none ∈
      (processHandler (some "a.png") (some "blue")
        ⟨.ok (), .ok ⟨none⟩, .ok ⟨some "QUJD"⟩, .ok (), "1-u"⟩ ["a.png"]).trace ∧
    (processHandler (some "a.png") (some "blue")
        ⟨.ok (), .ok ⟨none⟩, .ok ⟨some "QUJD"⟩, .ok (), "1-u"⟩ ["a.png"]).response =
      ⟨200, Body.success none ("/storage/" ++ outNameOf "1-u")
        ("/storage/" ++ previewNameOf "a.png")⟩) :=
  ⟨by decide,
   by
    have h := process_raw_response_no_text "a.png" "QUJD" ⟨none⟩ (some "blue")
      ⟨.ok (), .ok ⟨none⟩, .ok ⟨some "QUJD"⟩, .ok (), "1-u"⟩ ["a.png"]
      (by decide) rfl rfl rfl rfl rfl
    simpa using h⟩

/-- C3: when the image-edit client takes its error fallback (a null image
payload), the handler either fails the whole request with HTTP 500 or writes a
corrupt/empty output file; in fact the left branch holds, and the 500 body
carries the `TypeError` message produced by decoding the null payload,
showing no guard inspected the payload before `Buffer.from` ran. -/
theorem process_image_fallback_disjunction
    (f msg : String) (promptField? : Option String) (env : ProcessEnv) (fs0 : Storage)
    (hne : jsTrim (promptField?.getD "") ≠ "")
    (hprev : env.previewWrite = .ok ())
    (himg : env.editSvc = .error msg) :
    (processHandler (some f) promptField? env fs0).response =
      ⟨500, Body.serverError "Server error" bufferNullMsg⟩ ∨
    outNameOf env.outStamp ∈ (processHandler (some f) promptField? env fs0).fs := by
  left
  simp [processHandler, hne, hprev, himg, editImage, bufferFromBase64]

/-- Witness for C3 at a concrete request whose image call fails. -/
theorem process_image_fallback_disjunction_witness :
    jsTrim ((some "blue" : Option String).getD "") ≠ "" ∧
    ((processHandler (some "a.png") (some "blue")
        ⟨.ok (), .ok ⟨some "t"⟩, .error "boom", .ok (), "1-u"⟩ ["a.png"]).response =
      ⟨500, Body.serverError "Server error" bufferNullMsg⟩ ∨
    outNameOf "1-u" ∈ (processHandler (some "a.png") (some "blue")
        ⟨.ok (), .ok ⟨some "t"⟩, .error "boom", .ok (), "1-u"⟩ ["a.png"]).fs) :=
  ⟨by decide,
   process_image_fallback_disjunction "a.png" "boom" (some "blue")
     ⟨.ok (), .ok ⟨some "t"⟩, .error "boom", .ok (), "1-u"⟩ ["a.png"]
     (by decide) rfl rfl⟩

/-- C4: when `editImage` returns its fallback `{imageBase64:null, error}`,
exactly the 500 branch of the disjunction runs: `Buffer.from(null,'base64')`
throws before any output write, so the request answers HTTP 500, the output
write is never attempted, storage gains only the preview file written earlier
in the same request, and that preview file remains on disk. -/
theorem process_image_fallback_exact
    (f msg : String) (promptField? : Option String) (env : ProcessEnv) (fs0 : Storage)
    (hne : jsTrim (promptField?.getD "") ≠ "")
    (hprev : env.previewWrite = .ok ())
    (himg : env.editSvc = .error msg) :
    editImage f (parsePrompt (jsTrim (promptField?.getD "")) env.parseSvc).text? env.editSvc =
      ⟨none, some msg⟩ ∧
    (processHandler (some f) promptField? env fs0).response.status = 500 ∧
    (processHandler (some f) promptField? env fs0).fs = previewNameOf f :: fs0 ∧
    previewNameOf f ∈ (processHandler (some f) promptField? env fs0).fs ∧
    (∀ n, Event.persistAttempt n ∉ (processHandler (some f) promptField? env fs0).trace) := by
  refine ⟨by simp [editImage, himg], ?_, ?_, ?_, ?_⟩ <;>
    simp [processHandler, hne, hprev, himg, editImage, bufferFromBase64]

/-- Witness for C4 at a concrete request whose image call fails. -/
theorem process_image_fallback_exact_witness :
    jsTrim ((some "blue" : Option String).getD "") ≠ "" ∧
    (editImage "a.png"
        (parsePrompt (jsTrim ((some "blue" : Option String).getD ""))
          (Except.ok ⟨some "t"⟩)).text? (Except.error "boom") = ⟨none, some "boom"⟩ ∧
    (processHandler (some "a.png") (some "blue")
        ⟨.ok (), .ok ⟨some "t"⟩, .error "boom", .ok (), "1-u"⟩ ["a.png"]).response.status = 500 ∧
    (processHandler (some "a.png") (some "blue")
        ⟨.ok (), .ok ⟨some "t"⟩, .error "boom", .ok (), "1-u"⟩ ["a.png"]).fs =
      previewNameOf "a.png" :: ["a.png"] ∧
    previewNameOf "a.png" ∈ (processHandler (some "a.png") (some "blue")
        ⟨.ok (), .ok ⟨some "t"⟩, .error "boom", .ok (), "1-u"⟩ ["a.png"]).fs ∧
    (∀ n, Event.persistAttempt n ∉ (processHandler (some "a.png") (some "blue")
        ⟨.ok (), .ok ⟨some "t"⟩, .error "boom", .ok (), "1-u"⟩ ["a.png"]).trace)) :=
  ⟨by decide,
   process_image_fallback_exact "a.png" "boom" (some "blue")
     ⟨.ok (), .ok ⟨some "t"⟩, .error "boom", .ok (), "1-u"⟩ ["a.png"]
     (by decide) rfl rfl⟩

/-- C8: a `success:true` body is produced only when the output write has
completed: whenever the handler's response body is a success payload, the
output write succeeded, the output file is in storage at response time, and in
the trace the persist step precedes the 200 response. -/
theorem success_only_after_write
    (file? promptField? : Option String) (env : ProcessEnv) (fs0 : Storage)
    (p : Option String) (iu pu : String)
    (hbody : (processHandler file? promptField? env fs0).response.body =
      Body.success p iu pu) :
    env.outputWrite = .ok () ∧
    outNameOf env.outStamp ∈ (processHandler file? promptField? env fs0).fs ∧
    (∃ l1 l2, (processHandler file? promptField? env fs0).trace =
      l1 ++ Event.persistAttempt (outNameOf env.outStamp) :: l2 ∧
      Event.respond 200 ∈ l2) := by
  cases file? with
  | none => simp [processHandler] at hbody
  | some f =>
    by_cases hpr : jsTrim (promptField?.getD "") = ""
    · simp [processHandler, hpr] at hbody
    · cases hprev : env.previewWrite with
      | error m => simp [processHandler, hpr, hprev] at hbody
      | ok u =>
        cases hb : (editImage f (parsePrompt (jsTrim (promptField?.getD ""))
            env.parseSvc).text? env.editSvc).imageBase64? with
        | none => simp [processHandler, hpr, hprev, hb, bufferFromBase64] at hbody
        | some s =>
          cases hw : env.outputWrite with
          | error m => simp [processHandler, hpr, hprev, hb, hw, bufferFromBase64] at hbody
          | ok u' =>
            refine ⟨by cases u'; rfl, ?_, ?_⟩
            · simp [processHandler, hpr, hprev, hb, hw, bufferFromBase64]
            · refine ⟨[.validate, .previewAttempt (previewNameOf f),
                .textCall (jsTrim (promptField?.getD "")),
                .imageCall f (parsePrompt (jsTrim (promptField?.getD ""))
                  env.parseSvc).text?], [.respond 200], ?_, by simp⟩
              simp [processHandler, hpr, hprev, hb, hw, bufferFromBase64]

/-- Witness for C8 at a concrete successful request. -/
theorem success_only_after_write_witness :
    ((processHandler (some "a.png") (some "blue")
        ⟨.ok (), .ok ⟨some "t"⟩, .ok ⟨some "QUJD"⟩, .ok (), "1-u"⟩ ["a.png"]).response.body =
      Body.success (some "t") ("/storage/" ++ outNameOf "1-u")
        ("/storage/" ++ previewNameOf "a.png")) ∧
    ((Except.ok () : Except String Unit) = .ok () ∧
    outNameOf "1-u" ∈ (processHandler (some "a.png") (some "blue")
        ⟨.ok (), .ok ⟨some "t"⟩, .ok ⟨some "QUJD"⟩, .ok (), "1-u"⟩ ["a.png"]).fs ∧
    (∃ l1 l2, (processHandler (some "a.png") (some "blue")
        ⟨.ok (), .ok ⟨some "t"⟩, .ok ⟨some "QUJD"⟩, .ok (), "1-u"⟩ ["a.png"]).trace =
      l1 ++ Event.persistAttempt (outNameOf "1-u") :: l2 ∧
      Event.respond 200 ∈ l2)) :=
  ⟨by decide,
   success_only_after_write (some "a.png") (some "blue")
     ⟨.ok (), .ok ⟨some "t"⟩, .ok ⟨some "QUJD"⟩, .ok (), "1-u"⟩ ["a.png"]
     (some "t") ("/storage/" ++ outNameOf "1-u")
     ("/storage/" ++ previewNameOf "a.png") (by decide)⟩

/-- C9: every run of the `/process` handler performs its steps in the strict
pipeline order validate → preview → text call → image call → persist → respond:
the trace starts with validation, ends with the response, and the ranks of its
events are strictly increasing, so each step runs at most once and only after
every earlier step has completed. -/
theorem pipeline_strict_sequence
    (file? promptField? : Option String) (env : ProcessEnv) (fs0 : Storage) :
    ((processHandler file? promptField? env fs0).trace.head? = some Event.validate) ∧
    (∃ s, (processHandler file? promptField? env fs0).trace.getLast? =
      some (Event.respond s)) ∧
    (((processHandler file? promptField? env fs0).trace.map eventRank).Chain'
      (· < ·)) := by
  cases file? with
  | none =>
    refine ⟨?_, ⟨400, ?_⟩, ?_⟩ <;> simp [processHandler, eventRank]
  | some f =>
    by_cases hpr : jsTrim (promptField?.getD "") = ""
    · refine ⟨?_, ⟨400, ?_⟩, ?_⟩ <;> simp [processHandler, hpr, eventRank]
    · cases hprev : env.previewWrite with
      | error m =>
        refine ⟨?_, ⟨500, ?_⟩, ?_⟩ <;> simp [processHandler, hpr, hprev, eventRank]
      | ok u =>
        cases hb : (editImage f (parsePrompt (jsTrim (promptField?.getD ""))
            env.parseSvc).text? env.editSvc).imageBase64? with
        | none =>
          refine ⟨?_, ⟨500, ?_⟩, ?_⟩ <;>
            simp [processHandler, hpr, hprev, hb, bufferFromBase64, eventRank]
        | some s =>
          cases hw : env.outputWrite with
          | error m =>
            refine ⟨?_, ⟨500, ?_⟩, ?_⟩ <;>
              simp [processHandler, hpr, hprev, hb, hw, bufferFromBase64, eventRank]
          | ok u' =>
            refine ⟨?_, ⟨200, ?_⟩, ?_⟩ <;>
              simp [processHandler, hpr, hprev, hb, hw, bufferFromBase64, eventRank]

/-- `charsHaveStart hay pat` holds exactly when `pat` is an initial segment
of `hay`. -/
theorem charsHaveStart_iff (pat hay : List Char) :
    charsHaveStart hay pat = true ↔ ∃ rest, hay = pat ++ rest := by
  induction pat generalizing hay with
  | nil =>
    simp [charsHaveStart]
  | cons p ps ih =>
    cases hay with
    | nil => simp [charsHaveStart]
    | cons h hs =>
      simp only [charsHaveStart, Bool.and_eq_true, beq_iff_eq, ih, List.cons_append,
        List.cons.injEq]
      constructor
      · rintro ⟨rfl, rest, rfl⟩
        exact ⟨rest, rfl, rfl⟩
      · rintro ⟨rest, rfl, rfl⟩
        exact ⟨rfl, rest, rfl⟩

/-- `charsContain hay pat` holds exactly when `pat` occurs contiguously
inside `hay`. -/
theorem charsContain_iff (pat hay : List Char) :
    charsContain hay pat = true ↔ ∃ pre post, hay = pre ++ pat ++ post := by
  induction hay with
  | nil =>
    simp only [charsContain, List.isEmpty_iff]
    constructor
    · rintro rfl
      exact ⟨[], [], rfl⟩
    · rintro ⟨pre, post, hp⟩
      rcases List.append_eq_nil.mp hp.symm with ⟨h1, -⟩
      exact (List.append_eq_nil.mp h1).2
  | cons a tl ih =>
    simp only [charsContain, Bool.or_eq_true, ih, charsHaveStart_iff]
    constructor
    · rintro (⟨rest, hr⟩ | ⟨pre, post, hp⟩)
      · exact ⟨[], rest, by simp [hr]⟩
      · exact ⟨a :: pre, post, by simp [hp]⟩
    · rintro ⟨pre, post, hp⟩
      cases pre with
      | nil =>
        left
        exact ⟨post, by simpa using hp⟩
      | cons b bs =>
        right
        rw [List.cons_append] at hp
        injection hp with h1 h2
        exact ⟨bs, post, h2⟩

/-- `strEndsWith hay pat` holds exactly when `pat` is a suffix of `hay`. -/
theorem strEndsWith_iff (hay pat : String) :
    strEndsWith hay pat = true ↔ ∃ pre, hay.data = pre ++ pat.data := by
  unfold strEndsWith
  rw [charsHaveStart_iff]
  constructor
  · rintro ⟨rest, hr⟩
    refine ⟨rest.reverse, ?_⟩
    have := congrArg List.reverse hr
    simpa using this
  · rintro ⟨pre, hp⟩
    refine ⟨pre.reverse, ?_⟩
    simpa using congrArg List.reverse hp

/-- C6 counterexample: the filter's MIME check is a substring test, not a
format check — a file whose MIME type `application/x-png` denotes none of the
allowed formats and whose filename `document.txt` has a disallowed extension
is nevertheless accepted. -/
theorem fileFilter_substring_counterexample :
    fileFilterAllows "application/x-png" "document.txt" = true ∧
    specMimeAllowed "application/x-png" = false ∧
    extTest "document.txt" = false := by
  decide

/-- C6 amended: the `fileFilter` accepts a file exactly when one of the
substrings `jpeg`, `jpg`, `png`, `webp` occurs anywhere in its MIME type, or
its filename ends case-insensitively in `.jpg`, `.jpeg`, `.png` or `.webp`;
in particular every file whose MIME type contains none of those substrings
and whose extension is outside that set is rejected before the pipeline runs. -/
theorem fileFilter_characterization (m n : String) :
    fileFilterAllows m n = true ↔
      ((∃ pre post, m.data = pre ++ "jpeg".data ++ post) ∨
       (∃ pre post, m.data = pre ++ "jpg".data ++ post) ∨
       (∃ pre post, m.data = pre ++ "png".data ++ post) ∨
       (∃ pre post, m.data = pre ++ "webp".data ++ post)) ∨
      ((∃ pre, (lowerStr n).data = pre ++ ".jpg".data) ∨
       (∃ pre, (lowerStr n).data = pre ++ ".jpeg".data) ∨
       (∃ pre, (lowerStr n).data = pre ++ ".png".data) ∨
       (∃ pre, (lowerStr n).data = pre ++ ".webp".data)) := by
  simp only [fileFilterAllows, extTest, strContains, Bool.or_eq_true,
    charsContain_iff, strEndsWith_iff, or_assoc]

/-- C7 counterexample: `GET /health` is not always answered 200 — the global
rate limiter rejects the 61st request of a window with 429 — and `ts` is not
strictly increasing — two admitted calls served at the same millisecond
reading return equal values. -/
theorem health_claim_counterexample :
    (healthRequest 60 7).status = 429 ∧
    (healthRequest 0 7).body = Body.health "ok" 7 ∧
    (healthRequest 1 7).body = Body.health "ok" 7 ∧
    ¬ (7 : Nat) < 7 := by
  decide

/-- C7 amended: a `/health` request that passes the rate limiter (at most 59
prior requests from that client in the current 60-second window) is answered
HTTP 200 with `{status:"ok", ts:<current clock reading>}`; hence across two
successive admitted calls `ts` is non-decreasing whenever the clock is,
strictly increasing exactly when the clock advanced between them. -/
theorem health_ok_monotone (h1 h2 now1 now2 : Nat)
    (ha1 : rateLimitAllows h1 = true) (ha2 : rateLimitAllows h2 = true)
    (hclock : now1 ≤ now2) :
    healthRequest h1 now1 = ⟨200, Body.health "ok" now1⟩ ∧
    healthRequest h2 now2 = ⟨200, Body.health "ok" now2⟩ ∧
    (∀ t1 t2, (healthRequest h1 now1).body = Body.health "ok" t1 →
      (healthRequest h2 now2).body = Body.health "ok" t2 → t1 ≤ t2) := by
  refine ⟨by simp [healthRequest, ha1, healthHandler],
    by simp [healthRequest, ha2, healthHandler], ?_⟩
  intro t1 t2 hb1 hb2
  simp [healthRequest, ha1, ha2, healthHandler] at hb1 hb2
  omega

/-- Witness for the amended C7 at two concrete admitted calls. -/
theorem health_ok_monotone_witness :
    rateLimitAllows 0 = true ∧ rateLimitAllows 1 = true ∧ (3 : Nat) ≤ 5 ∧
    (healthRequest 0 3 = ⟨200, Body.health "ok" 3⟩ ∧
     healthRequest 1 5 = ⟨200, Body.health "ok" 5⟩ ∧
     (∀ t1 t2, (healthRequest 0 3).body = Body.health "ok" t1 →
       (healthRequest 1 5).body = Body.health "ok" t2 → t1 ≤ t2)) :=
  ⟨by decide, by decide, by decide,
   health_ok_monotone 0 1 3 5 (by decide) (by decide) (by decide)⟩

end FlashBanana
